import Mathlib

/-!
Shallow embedding of the citation-analysis pipeline
(`citation_analyzer.py`, `extract_pdf.py`).

Python strings are modelled as `List Char` (sequences of code points), so
that slicing (`s[:200]`), `len`, concatenation and regex-style run
collapsing are the corresponding list operations.  JSON values decoded by
`json.loads` are modelled by the inductive `Json`; Python `dict`s returned
by the pipeline are association lists `PyDict`.  Code that can raise an
exception that propagates to its caller is modelled in `Except Unit`:
`Except.error ()` means an uncaught exception passed out of the modelled
function.
-/

/-- JSON values, the possible results of decoding a completion body. -/
inductive Json where
  | null
  | bool (b : Bool)
  | num (n : Int)
  | str (s : List Char)
  | arr (elems : List Json)
  | obj (fields : List (String × Json))

/-- A Python dict as produced by `process_single_pdf` / consumed by `main`:
an association list from keys to JSON-modelled values. -/
abbrev PyDict := List (String × Json)

/-- Python truthiness (`if not x`) restricted to the values that occur as
decoded JSON: empty containers, empty strings, zero and `null`/`False` are
falsy, everything else truthy. -/
def jsonTruthy : Json → Bool
  | Json.null => false
  | Json.bool b => b
  | Json.num n => !(n == 0)
  | Json.str s => !s.isEmpty
  | Json.arr xs => !xs.isEmpty
  | Json.obj fs => !fs.isEmpty

/-- Python `d.get(key, default)` on a value expected to be a dict:
returns the stored value or the default when the key is absent; raises
`AttributeError` (modelled `Except.error ()`) when the value is not a dict. -/
def pyGet (j : Json) (key : String) (default : Json) : Except Unit Json :=
  match j with
  | Json.obj fs => Except.ok ((fs.lookup key).getD default)
  | _ => Except.error ()

/-- The call `d.get(key, default)` on a value statically known to be a dict. -/
def dictGetD (d : PyDict) (key : String) (default : Json) : Json :=
  (d.lookup key).getD default

/-! The retry loop `call_llm_api` (citation_analyzer.py lines 66-119).

The HTTP transport is a black box; the outcome of one attempt is either an HTTP
response (status code, and — relevant only for a 200 — the model
completion extracted from `response_data["choices"][0]["message"]["content"]`
and passed through `json.loads`, `none` when that extraction or parse
fails), a network fault (`requests.Timeout` / `requests.ConnectionError`),
or any other exception.  The environment is a function from the attempt
index to that outcome. -/

inductive ReqOutcome where
  | response (status : Nat) (content : Option Json)
  | netError
  | otherError

/-- Observable result of `call_llm_api`: the returned Python value
(`{}` = `Json.obj []` on every failure path), the number of HTTP requests
issued, and the successive delays passed to `time.sleep`, in order. -/
structure ApiCallResult where
  result : Json
  requests : Nat
  delays : List Nat

/-- The `for attempt in range(max_retries)` loop of `call_llm_api`.
Arguments: remaining attempts, current `wait_time`, requests issued so
far, delays slept so far (reversed). -/
def call_llm_api_loop (resp : Nat → ReqOutcome) :
    Nat → Nat → Nat → List Nat → ApiCallResult
  | 0, _, n, ds => ⟨Json.obj [], n, ds.reverse⟩
  | fuel + 1, wait, n, ds =>
    match resp n with
    | ReqOutcome.response status content =>
      if status = 200 then
        match content with
        | some j => ⟨j, n + 1, ds.reverse⟩
        | none => ⟨Json.obj [], n + 1, ds.reverse⟩
      else if status = 429 then
        call_llm_api_loop resp fuel (wait * 2) (n + 1) (wait :: ds)
      else if status = 503 then
        call_llm_api_loop resp fuel (wait * 2) (n + 1) (wait :: ds)
      else ⟨Json.obj [], n + 1, ds.reverse⟩
    | ReqOutcome.netError =>
      call_llm_api_loop resp fuel (wait * 2) (n + 1) (wait :: ds)
    | ReqOutcome.otherError => ⟨Json.obj [], n + 1, ds.reverse⟩

/-- The function `call_llm_api`: `max_retries = 3`, initial `wait_time = 5`. -/
def call_llm_api (resp : Nat → ReqOutcome) : ApiCallResult :=
  call_llm_api_loop resp 3 5 0 []

/-! Prompt construction (citation_analyzer.py lines 31-56).

The user prompt is an f-string: a fixed instruction text (with the target
title interpolated) followed by the interpolated `pdf_text`.  The fixed
part is abstracted as a parameter; the point taken from the source is that
`pdf_text` is interpolated whole — the f-string contains no slice of it,
even though its label text reads "前30000字符" (first 30000 characters). -/
def buildPrompt (instructions pdfText : List Char) : List Char :=
  instructions ++ pdfText

/-! The extractor `extract_pdf` (extract_pdf.py lines 91-137).

The PDF-parsing libraries are black boxes consumed through a "path → page
texts" contract: a `PdfFile` is either parseable, giving per page the text
of each of its text containers, or corrupt, in which case the library call
(`extract_pages` / `pdfplumber.open`) raises.  `extract_pdf` contains no
`try`/`except`, so on a corrupt file the exception propagates to its
caller — modelled as `Except.error ()`. -/

inductive PdfFile where
  | parsed (pages : List (List (List Char)))
  | corrupt

/-- Whether `c` is a space, tab or form feed — the class matched by the
first regex in the nested `clean_text`. -/
def isSpaceTabFF (c : Char) : Bool :=
  c == ' ' || c == '\t' || c == Char.ofNat 12

/-- Whether `c` is a newline — the class of the second regex. -/
def isNewline (c : Char) : Bool := c == '\n'

/-- Scanner for `collapseRuns`.  The accumulator holds the pending run of
`p`-characters: its first character and whether it already has length ≥ 2. -/
def collapseRunsAux (p : Char → Bool) (repl : List Char) :
    Option (Char × Bool) → List Char → List Char
  | none, [] => []
  | some (c, two), [] => if two then repl else [c]
  | none, x :: xs =>
    if p x then collapseRunsAux p repl (some (x, false)) xs
    else x :: collapseRunsAux p repl none xs
  | some (c, two), x :: xs =>
    if p x then collapseRunsAux p repl (some (c, true)) xs
    else ((if two then repl else [c]) ++ x :: collapseRunsAux p repl none xs)

/-- The substitution `re.sub` of `repl` for two-or-more repeats of a
character class `p`: every maximal run
of two or more `p`-characters is replaced by `repl`; runs of length one
are left unchanged. -/
def collapseRuns (p : Char → Bool) (repl : List Char) (l : List Char) :
    List Char :=
  collapseRunsAux p repl none l

/-- Whether `c` counts as whitespace for Python `str.strip()` (the ASCII cases,
which are the only ones the pipeline produces). -/
def pyIsSpace (c : Char) : Bool :=
  c == ' ' || c == '\t' || c == '\n' || c == '\r' ||
    c == Char.ofNat 11 || c == Char.ofNat 12

/-- Python `s.strip()`: drop whitespace from both ends. -/
def pyStrip (l : List Char) : List Char :=
  ((l.dropWhile pyIsSpace).reverse.dropWhile pyIsSpace).reverse

/-- The `clean_text` nested inside `extract_pdf` (extract_pdf.py lines
103-108): collapse runs of spaces/tabs/form feeds to one space, collapse
runs of 2+ newlines to exactly two newlines, then strip. -/
def clean_text (text : List Char) : List Char :=
  pyStrip (collapseRuns isNewline [Char.ofNat 10, Char.ofNat 10]
    (collapseRuns isSpaceTabFF [' '] text))

/-- The function `extract_pdf(pdf_path, engine)`.  The commented-out `pymupdf` branch is
omitted.  The `pdfplumber` branch appends the text of each page plus a newline;
the default `pdfminer` branch appends the text of each text container plus
a newline; both then apply the nested `clean_text`.  The `pdfplumber` text
of a page is modelled as the concatenation of its container texts.  Neither
branch catches parse failures. -/
def extract_pdf (file : PdfFile) (engine : String) : Except Unit (List Char) :=
  match file with
  | PdfFile.corrupt => Except.error ()
  | PdfFile.parsed pages =>
    if engine = "pdfplumber" then
      Except.ok (clean_text ((pages.map (fun p => p.flatten ++ ['\n'])).flatten))
    else
      Except.ok (clean_text ((pages.flatten.map (fun e => e ++ ['\n'])).flatten))

/-! The per-document task `process_single_pdf` (citation_analyzer.py lines 121-143). -/

/-- The error-marker dict `{"filename": ..., "error": ...}`. -/
def errorRecord (filename : List Char) (err : List Char) : PyDict :=
  [("filename", Json.str filename), ("error", Json.str err)]

/-- The success dict built at lines 137-143: the four `result.get` calls
followed by the literal dict.  `result` is whatever `json.loads` produced;
if it is not a dict, `.get` raises `AttributeError`, which propagates. -/
def successRecord (filename : List Char) (result : Json) : Except Unit PyDict :=
  match pyGet result "title" (Json.str []) with
  | Except.error e => Except.error e
  | Except.ok t =>
    match pyGet result "journal" (Json.str []) with
    | Except.error e => Except.error e
    | Except.ok j =>
      match pyGet result "authors" (Json.arr []) with
      | Except.error e => Except.error e
      | Except.ok a =>
        match pyGet result "citations" (Json.arr []) with
        | Except.error e => Except.error e
        | Except.ok c =>
          Except.ok [("filename", Json.str filename), ("title", t),
            ("journal", j), ("authors", a), ("citations", c)]

/-- Result of one `process_single_pdf` task: the record it returns — or
`Except.error ()` when an exception escaped it into the future — together
with whether the classifier (`call_llm_api`) was invoked. -/
structure ProcResult where
  record : Except Unit PyDict
  apiCalled : Bool

/-- The function `process_single_pdf`: extract (default engine), return
`TEXT_EXTRACTION_FAILED` on falsy (empty) text, call the API, return
`API_CALL_FAILED` on a falsy result, else build the success dict.  The
function has no `try`/`except`, so an exception from `extract_pdf` or from
the `.get` calls propagates. -/
def process_single_pdf (filename : List Char) (file : PdfFile)
    (resp : Nat → ReqOutcome) : ProcResult :=
  match extract_pdf file "pdfminer" with
  | Except.error e => ⟨Except.error e, false⟩
  | Except.ok text =>
    if text.isEmpty then
      ⟨Except.ok (errorRecord filename "TEXT_EXTRACTION_FAILED".toList), false⟩
    else
      let result := (call_llm_api resp).result
      if jsonTruthy result then
        match successRecord filename result with
        | Except.ok r => ⟨Except.ok r, true⟩
        | Except.error e => ⟨Except.error e, true⟩
      else ⟨Except.ok (errorRecord filename "API_CALL_FAILED".toList), true⟩

/-- The result-collection loop of `main` (lines 158-167): a future whose
task raised is reported and contributes no record; the remaining records are
appended in completion order. -/
def collectResults (outs : List ProcResult) : List PyDict :=
  outs.filterMap (fun o =>
    match o.record with
    | Except.ok r => some r
    | Except.error _ => none)

/-! CSV output (citation_analyzer.py lines 170-183).

`main` writes, for each result dict and each element of
`res.get("citations", [])`, one row of seven cells.  A cell holds whatever
Python value the expression produced; `csv.writer` stringifies it, which
is irrelevant here, so a row is a `List Json`. -/

/-- The conditional expression of line 180 on a string value:
`q[:200] + "..." if len(q) > 200 else q`. -/
def truncateQuote (q : List Char) : List Char :=
  if 200 < q.length then q.take 200 ++ "...".toList else q

/-- The expression of line 180 on the raw JSON value of `cite.get("quote", "")`:
for a non-string, `len` or the `+ "..."` concatenation raises `TypeError`. -/
def quoteCell : Json → Except Unit Json
  | Json.str s => Except.ok (Json.str (truncateQuote s))
  | _ => Except.error ()

/-- Each joined element must be a `str`, or `str.join` raises `TypeError`. -/
def mapStr : List Json → Except Unit (List (List Char))
  | [] => Except.ok []
  | Json.str s :: rest =>
    match mapStr rest with
    | Except.ok ss => Except.ok (s :: ss)
    | Except.error e => Except.error e
  | _ :: _ => Except.error ()

/-- Python `sep.join(x)`: over a list of strings it interleaves `sep`;
over a string it joins the one-character strings; anything else raises. -/
def pyJoin (sep : List Char) : Json → Except Unit (List Char)
  | Json.arr xs =>
    match mapStr xs with
    | Except.ok ss => Except.ok (List.intercalate sep ss)
    | Except.error e => Except.error e
  | Json.str s => Except.ok (List.intercalate sep (s.map (fun c => [c])))
  | _ => Except.error ()

/-- Python iteration (`for cite in x`): lists yield their elements,
strings their one-character substrings, dicts their keys; other values
raise `TypeError`. -/
def pyIter : Json → Except Unit (List Json)
  | Json.arr xs => Except.ok xs
  | Json.str s => Except.ok (s.map (fun c => Json.str [c]))
  | Json.obj fs => Except.ok (fs.map (fun kv => Json.str kv.fst.toList))
  | _ => Except.error ()

/-- One `writer.writerow([...])` of lines 175-183, with the cell
expressions evaluated in the left-to-right order Python uses:
`res["filename"]` (raises `KeyError` when absent), the `res.get` defaults,
the author join, the quote truncation, sentiment and page. -/
def writeRow (res : PyDict) (cite : Json) : Except Unit (List Json) :=
  match res.lookup "filename" with
  | none => Except.error ()
  | some fn =>
    match pyJoin "; ".toList (dictGetD res "authors" (Json.arr [])) with
    | Except.error e => Except.error e
    | Except.ok authors =>
      match pyGet cite "quote" (Json.str []) with
      | Except.error e => Except.error e
      | Except.ok q =>
        match quoteCell q with
        | Except.error e => Except.error e
        | Except.ok qc =>
          match pyGet cite "sentiment" (Json.str []) with
          | Except.error e => Except.error e
          | Except.ok s =>
            match pyGet cite "page" (Json.str []) with
            | Except.error e => Except.error e
            | Except.ok p =>
              Except.ok [fn, dictGetD res "title" (Json.str []),
                dictGetD res "journal" (Json.str []), Json.str authors,
                qc, s, p]

/-- Effectful map over `Except`, aborting at the first raising element —
the semantics of a Python `for` body that may raise. -/
def mapE (f : α → Except Unit β) : List α → Except Unit (List β)
  | [] => Except.ok []
  | a :: rest =>
    match f a with
    | Except.error e => Except.error e
    | Except.ok b =>
      match mapE f rest with
      | Except.error e => Except.error e
      | Except.ok bs => Except.ok (b :: bs)

/-- The inner loop for one result dict:
`for cite in res.get("citations", []): writer.writerow(...)`. -/
def recordRows (res : PyDict) : Except Unit (List (List Json)) :=
  match pyIter (dictGetD res "citations" (Json.arr [])) with
  | Except.error e => Except.error e
  | Except.ok cs => mapE (writeRow res) cs

/-- The outer loop of lines 173-183: the data rows (the header row aside)
written for the collected results, in order. -/
def dataRows : List PyDict → Except Unit (List (List Json))
  | [] => Except.ok []
  | res :: rest =>
    match recordRows res with
    | Except.error e => Except.error e
    | Except.ok rows =>
      match dataRows rest with
      | Except.error e => Except.error e
      | Except.ok more => Except.ok (rows ++ more)

/-- Number of iterations the citation loop performs for one result dict
(`0` when iteration itself would raise). -/
def numCitations (res : PyDict) : Nat :=
  match pyIter (dictGetD res "citations" (Json.arr [])) with
  | Except.ok cs => cs.length
  | Except.error _ => 0

/-- C1: on two rate-limit (429) responses followed by a 200 response whose
completion parses to `j`, `call_llm_api` issues exactly 3 requests, sleeps
the base delay 5 and then its double 10 before the two retries (strictly
increasing), and returns `j`. -/
theorem call_llm_api_ratelimit_retry_schedule
    (resp : Nat → ReqOutcome) (c0 c1 : Option Json) (j : Json)
    (h0 : resp 0 = ReqOutcome.response 429 c0)
    (h1 : resp 1 = ReqOutcome.response 429 c1)
    (h2 : resp 2 = ReqOutcome.response 200 (some j)) :
    call_llm_api resp = ⟨j, 3, [5, 5 * 2]⟩ ∧
      List.Chain' (fun a b => a < b) [5, 5 * 2] := by
  refine ⟨?_, List.chain'_pair.mpr (by norm_num)⟩
  simp [call_llm_api, call_llm_api_loop, h0, h1, h2]

/-- Witness for C1 at a concrete transcript and payload. -/
theorem call_llm_api_ratelimit_retry_schedule_witness :
    call_llm_api (fun n => if n < 2 then ReqOutcome.response 429 none
        else ReqOutcome.response 200 (some (Json.num 7))) =
      ⟨Json.num 7, 3, [5, 5 * 2]⟩ :=
  (call_llm_api_ratelimit_retry_schedule _ none none (Json.num 7)
    rfl rfl rfl).1

/-- C2 (code bug evaluation): the f-string embeds the extracted text in
full — dropping the instruction prefix from the prompt built over a
30001-character text recovers all 30001 characters, exceeding the 30000
bound stated by the claim (and by the label inside the prompt). -/
theorem buildPrompt_embeds_full_text :
    (buildPrompt "INSTRUCTIONS".toList (List.replicate 30001 'a')).drop
        "INSTRUCTIONS".toList.length = List.replicate 30001 'a' ∧
      30000 < (List.replicate 30001 'a').length := by
  constructor
  · exact List.drop_left "INSTRUCTIONS".toList (List.replicate 30001 'a')
  · rw [List.length_replicate]
    norm_num

/-- C4: a response whose status is neither 2xx nor one of the transient
codes 429/503 makes `call_llm_api` return the empty dict after exactly one
request, with no sleep. -/
theorem call_llm_api_permanent_error_one_attempt
    (resp : Nat → ReqOutcome) (status : Nat) (content : Option Json)
    (hr : resp 0 = ReqOutcome.response status content)
    (h2xx : status < 200 ∨ 299 < status)
    (h429 : status ≠ 429) (h503 : status ≠ 503) :
    call_llm_api resp = ⟨Json.obj [], 1, []⟩ := by
  have h200 : status ≠ 200 := by rcases h2xx with h | h <;> omega
  simp [call_llm_api, call_llm_api_loop, hr, h200, h429, h503]

/-- Witness for C4 at a concrete unauthorized (401) response. -/
theorem call_llm_api_permanent_error_one_attempt_witness :
    call_llm_api (fun _ => ReqOutcome.response 401 none) =
      ⟨Json.obj [], 1, []⟩ :=
  call_llm_api_permanent_error_one_attempt _ 401 none rfl
    (Or.inr (by norm_num)) (by norm_num) (by norm_num)

/-- C5: the output quote cell is at most 203 characters long, is the
source quote unchanged when that quote has at most 200 characters, and is
exactly the first 200 characters followed by `"..."` (total 203) when the
quote is longer; `quoteCell` is this expression on string-valued quotes. -/
theorem truncateQuote_spec (q : List Char) :
    (truncateQuote q).length ≤ 203 ∧
      (q.length ≤ 200 → truncateQuote q = q) ∧
      (200 < q.length →
        truncateQuote q = q.take 200 ++ "...".toList ∧
          (truncateQuote q).length = 203) ∧
      quoteCell (Json.str q) = Except.ok (Json.str (truncateQuote q)) := by
  refine ⟨?_, ?_, ?_, rfl⟩
  · by_cases h : 200 < q.length
    · simp [truncateQuote, h]
    · simp [truncateQuote, h]
      omega
  · intro h
    simp [truncateQuote, Nat.not_lt.mpr h]
  · intro h
    refine ⟨by simp [truncateQuote, h], ?_⟩
    simp [truncateQuote, h]
    omega

/-- C3 counterexample: on a corrupt file, `process_single_pdf` does not
return a Paper Record carrying an extraction error — the parse failure
escapes it as an exception (`Except.error ()`). -/
theorem corrupt_file_no_error_record_cex :
    (process_single_pdf "doc.pdf".toList PdfFile.corrupt
        (fun _ => ReqOutcome.otherError)).record = Except.error () ∧
      (process_single_pdf "doc.pdf".toList PdfFile.corrupt
          (fun _ => ReqOutcome.otherError)).record ≠
        Except.ok (errorRecord "doc.pdf".toList
          "TEXT_EXTRACTION_FAILED".toList) := by
  refine ⟨rfl, fun h => ?_⟩
  exact Except.noConfusion h

/-- C3 (amended): a parse failure raises out of the default-engine
extraction and propagates through `process_single_pdf` uncaught — no
Paper Record is created, the classifier is never invoked, and the
collection loop of the orchestrator appends nothing for that document. -/
theorem corrupt_file_exception_propagates (fn : List Char)
    (resp : Nat → ReqOutcome) :
    process_single_pdf fn PdfFile.corrupt resp = ⟨Except.error (), false⟩ ∧
      collectResults [process_single_pdf fn PdfFile.corrupt resp] = [] :=
  ⟨rfl, rfl⟩

/-- C9 counterexample: an empty-text document is distinguishable from a
parse failure at the public interface — the former yields an `ok` record
with `TEXT_EXTRACTION_FAILED`, the latter an escaped exception. -/
theorem empty_text_differs_from_parse_failure_cex :
    (process_single_pdf "p.pdf".toList (PdfFile.parsed [])
        (fun _ => ReqOutcome.otherError)).record =
      Except.ok (errorRecord "p.pdf".toList
        "TEXT_EXTRACTION_FAILED".toList) ∧
    (process_single_pdf "p.pdf".toList PdfFile.corrupt
        (fun _ => ReqOutcome.otherError)).record = Except.error () ∧
    process_single_pdf "p.pdf".toList (PdfFile.parsed [])
        (fun _ => ReqOutcome.otherError) ≠
      process_single_pdf "p.pdf".toList PdfFile.corrupt
        (fun _ => ReqOutcome.otherError) := by
  refine ⟨rfl, rfl, fun h => ?_⟩
  exact Except.noConfusion (congrArg ProcResult.record h)

/-- C9 (amended): whenever the default-engine extraction returns the empty
string, `process_single_pdf` returns the `TEXT_EXTRACTION_FAILED` error
marker and never calls the classifier.  (A parse failure behaves
differently: it raises, producing no record at all.) -/
theorem empty_text_error_marker (fn : List Char) (file : PdfFile)
    (resp : Nat → ReqOutcome)
    (hex : extract_pdf file "pdfminer" = Except.ok []) :
    process_single_pdf fn file resp =
      ⟨Except.ok (errorRecord fn "TEXT_EXTRACTION_FAILED".toList), false⟩ := by
  unfold process_single_pdf
  rw [hex]
  rfl

/-- Witness for the amended C9 theorem at a PDF with no pages. -/
theorem empty_text_error_marker_witness :
    process_single_pdf "p2.pdf".toList (PdfFile.parsed [])
        (fun _ => ReqOutcome.netError) =
      ⟨Except.ok (errorRecord "p2.pdf".toList
        "TEXT_EXTRACTION_FAILED".toList), false⟩ :=
  empty_text_error_marker "p2.pdf".toList (PdfFile.parsed [])
    (fun _ => ReqOutcome.netError) rfl

/-- A record built by `successRecord` always carries a `citations` key. -/
theorem successRecord_has_citations (fn : List Char) (result : Json)
    (r : PyDict) (h : successRecord fn result = Except.ok r) :
    (r.lookup "citations").isSome := by
  rcases result with _ | b | n | s | xs | fs <;>
    simp [successRecord, pyGet] at h
  rw [← h]
  simp [List.lookup]

/-- C6: every Paper Record that `process_single_pdf` returns carries a
`citations` key or an `error` key — never neither. -/
theorem process_record_citations_or_error (fn : List Char) (file : PdfFile)
    (resp : Nat → ReqOutcome) (r : PyDict)
    (h : (process_single_pdf fn file resp).record = Except.ok r) :
    (r.lookup "citations").isSome ∨ (r.lookup "error").isSome := by
  unfold process_single_pdf at h
  split at h
  · simp at h
  · split at h
    · simp at h
      rw [← h]
      right
      simp [errorRecord, List.lookup]
    · dsimp only at h
      split at h
      · split at h
        · simp at h
          rename_i r' hsr
          left
          rw [← h]
          exact successRecord_has_citations fn _ r' hsr
        · simp at h
      · simp at h
        rw [← h]
        right
        simp [errorRecord, List.lookup]

/-- Witness for C6 at a document whose classification yields `{}`. -/
theorem process_record_citations_or_error_witness :
    ((errorRecord "w.pdf".toList "API_CALL_FAILED".toList).lookup
        "citations").isSome ∨
      ((errorRecord "w.pdf".toList "API_CALL_FAILED".toList).lookup
        "error").isSome :=
  process_record_citations_or_error "w.pdf".toList
    (PdfFile.parsed [["x".toList]])
    (fun _ => ReqOutcome.response 200 (some (Json.obj []))) _ rfl

/-- C10: when extraction yields nonempty text and the classifier call
returns the empty dict (for instance because the completion was the valid
JSON document `{}`), `process_single_pdf` returns the `API_CALL_FAILED`
error marker rather than a success record with empty fields. -/
theorem empty_api_result_error_marker (fn : List Char) (file : PdfFile)
    (resp : Nat → ReqOutcome) (text : List Char)
    (hex : extract_pdf file "pdfminer" = Except.ok text)
    (hne : text ≠ [])
    (hres : (call_llm_api resp).result = Json.obj []) :
    process_single_pdf fn file resp =
      ⟨Except.ok (errorRecord fn "API_CALL_FAILED".toList), true⟩ := by
  unfold process_single_pdf
  rw [hex]
  have hemp : text.isEmpty = false := by
    simpa [List.isEmpty_iff] using hne
  simp [hemp, hres, jsonTruthy]

/-- Witness for C10 at a one-page document and a `{}` completion. -/
theorem empty_api_result_error_marker_witness :
    process_single_pdf "q.pdf".toList (PdfFile.parsed [["hi".toList]])
        (fun _ => ReqOutcome.response 200 (some (Json.obj []))) =
      ⟨Except.ok (errorRecord "q.pdf".toList "API_CALL_FAILED".toList),
        true⟩ :=
  empty_api_result_error_marker "q.pdf".toList
    (PdfFile.parsed [["hi".toList]])
    (fun _ => ReqOutcome.response 200 (some (Json.obj [])))
    "hi".toList rfl (by simp) rfl

/-- A non-raising `mapE` produces one output element per input element. -/
theorem mapE_ok_length {α β : Type} (f : α → Except Unit β) :
    ∀ (l : List α) (l2 : List β), mapE f l = Except.ok l2 →
      l2.length = l.length := by
  intro l
  induction l with
  | nil =>
    intro l2 h
    simp [mapE] at h
    simp [← h]
  | cons a rest ih =>
    intro l2 h
    unfold mapE at h
    split at h
    · simp at h
    · split at h
      · simp at h
      · rename_i bs hbs
        simp at h
        simp [← h, ih bs hbs]

/-- A non-raising citation loop writes one row per iterated element. -/
theorem recordRows_ok_length (res : PyDict) (rows : List (List Json))
    (h : recordRows res = Except.ok rows) : rows.length = numCitations res := by
  unfold recordRows at h
  unfold numCitations
  split at h
  · simp at h
  · rename_i cs hcs
    rw [hcs]
    exact mapE_ok_length (writeRow res) cs rows h

/-- A non-raising output pass writes `numCitations` rows per result. -/
theorem dataRows_ok_length :
    ∀ (results : List PyDict) (rows : List (List Json)),
      dataRows results = Except.ok rows →
      rows.length = (results.map numCitations).sum := by
  intro results
  induction results with
  | nil =>
    intro rows h
    simp [dataRows] at h
    simp [← h]
  | cons res rest ih =>
    intro rows h
    unfold dataRows at h
    split at h
    · simp at h
    · rename_i rows1 hrows1
      split at h
      · simp at h
      · rename_i more hmore
        simp at h
        simp [← h, List.length_append, recordRows_ok_length res rows1 hrows1,
          ih more hmore]

/-- C7: the output-writing loop emits exactly one data row per
(result, iterated citation) pair — the total row count is the sum of the
per-record citation counts; an error-marker record (which has no
`citations` key) contributes zero rows, and a record whose citations list
is empty contributes zero rows. -/
theorem output_rows_flattening (results : List PyDict)
    (rows : List (List Json)) (h : dataRows results = Except.ok rows) :
    rows.length = (results.map numCitations).sum ∧
      (∀ fn err, recordRows (errorRecord fn err) = Except.ok [] ∧
        numCitations (errorRecord fn err) = 0) ∧
      (∀ res, dictGetD res "citations" (Json.arr []) = Json.arr [] →
        recordRows res = Except.ok [] ∧ numCitations res = 0) := by
  refine ⟨dataRows_ok_length results rows h, ?_, ?_⟩
  · intro fn err
    exact ⟨rfl, rfl⟩
  · intro res hc
    constructor
    · unfold recordRows
      rw [hc]
      rfl
    · unfold numCitations
      rw [hc]
      rfl

/-- Witness for C7: one record with two citations plus one error-marker
record yield exactly two rows. -/
theorem output_rows_flattening_witness :
    (List.replicate 2 [Json.str "a.pdf".toList, Json.str [], Json.str [],
        Json.str [], Json.str [], Json.str [], Json.str []]).length =
      ([[("filename", Json.str "a.pdf".toList),
          ("citations", Json.arr [Json.obj [], Json.obj []])],
        errorRecord "b.pdf".toList "TEXT_EXTRACTION_FAILED".toList].map
          numCitations).sum :=
  (output_rows_flattening
    [[("filename", Json.str "a.pdf".toList),
      ("citations", Json.arr [Json.obj [], Json.obj []])],
     errorRecord "b.pdf".toList "TEXT_EXTRACTION_FAILED".toList]
    (List.replicate 2 [Json.str "a.pdf".toList, Json.str [], Json.str [],
      Json.str [], Json.str [], Json.str [], Json.str []]) rfl).1

/-- Decomposition of a successfully written row for an object citation
entry: the seven cells, with the sentiment and page cells being the
defaulted `.get` values and the quote cell the truncation of the
defaulted quote value. -/
theorem writeRow_obj_components (res : PyDict) (cf : List (String × Json))
    (row : List Json) (h : writeRow res (Json.obj cf) = Except.ok row) :
    ∃ fn authors qc,
      quoteCell ((cf.lookup "quote").getD (Json.str [])) = Except.ok qc ∧
      row = [fn, dictGetD res "title" (Json.str []),
        dictGetD res "journal" (Json.str []), Json.str authors, qc,
        (cf.lookup "sentiment").getD (Json.str []),
        (cf.lookup "page").getD (Json.str [])] := by
  unfold writeRow at h
  split at h
  · simp at h
  · rename_i fn hfn
    split at h
    · simp at h
    · rename_i authors hauth
      split at h
      · rename_i e heq
        simp [pyGet] at heq
      · rename_i q hq
        split at h
        · simp at h
        · rename_i qc hqc
          split at h
          · rename_i e heq
            simp [pyGet] at heq
          · rename_i s hs
            split at h
            · rename_i e heq
              simp [pyGet] at heq
            · rename_i p hp
              simp [pyGet] at hq hs hp
              simp at h
              refine ⟨fn, authors, qc, ?_, ?_⟩
              · rw [hq]
                exact hqc
              · rw [← h, ← hs, ← hp]

/-- C8: the success-record construction never raises on a decoded JSON
object, fields missing from the expected shape default to the empty
string (`title`, `journal`) or empty list (`authors`, `citations`), and
missing `quote`/`sentiment`/`page` fields of an object citation entry
default to the empty string in the written output row. -/
theorem missing_fields_default (fn : List Char)
    (fields : List (String × Json)) (res : PyDict)
    (cfields : List (String × Json)) (row : List Json)
    (hrow : writeRow res (Json.obj cfields) = Except.ok row) :
    (∃ r, successRecord fn (Json.obj fields) = Except.ok r ∧
      (fields.lookup "title" = none →
        r.lookup "title" = some (Json.str [])) ∧
      (fields.lookup "journal" = none →
        r.lookup "journal" = some (Json.str [])) ∧
      (fields.lookup "authors" = none →
        r.lookup "authors" = some (Json.arr [])) ∧
      (fields.lookup "citations" = none →
        r.lookup "citations" = some (Json.arr []))) ∧
    (cfields.lookup "quote" = none → row.get? 4 = some (Json.str [])) ∧
    (cfields.lookup "sentiment" = none → row.get? 5 = some (Json.str [])) ∧
    (cfields.lookup "page" = none → row.get? 6 = some (Json.str [])) := by
  obtain ⟨fnv, authors, qc, hqc, hroweq⟩ :=
    writeRow_obj_components res cfields row hrow
  refine ⟨⟨_, rfl, ?_, ?_, ?_, ?_⟩, ?_, ?_, ?_⟩
  · intro h
    rw [List.lookup, List.lookup, h]
    rfl
  · intro h
    rw [List.lookup, List.lookup, List.lookup, h]
    rfl
  · intro h
    rw [List.lookup, List.lookup, List.lookup, List.lookup, h]
    rfl
  · intro h
    rw [List.lookup, List.lookup, List.lookup, List.lookup, List.lookup, h]
    rfl
  · intro hq
    rw [hq] at hqc
    have hqcv : qc = Json.str [] := by
      simpa [quoteCell, truncateQuote] using hqc.symm
    rw [hroweq, hqcv]
    rfl
  · intro hs
    rw [hroweq, hs]
    rfl
  · intro hp
    rw [hroweq, hp]
    rfl

/-- Witness for C8 at a citation entry that is the empty object. -/
theorem missing_fields_default_witness :
    [Json.str "c.pdf".toList, Json.str [], Json.str [], Json.str [],
        Json.str [], Json.str [], Json.str []].get? 4 =
      some (Json.str []) :=
  (missing_fields_default "c.pdf".toList []
    [("filename", Json.str "c.pdf".toList)] []
    [Json.str "c.pdf".toList, Json.str [], Json.str [], Json.str [],
      Json.str [], Json.str [], Json.str []] rfl).2.1 rfl

/-- Witness for C5 at a 250-character quote and a 2-character quote. -/
theorem truncateQuote_spec_witness :
    truncateQuote (List.replicate 250 'a') =
        (List.replicate 250 'a').take 200 ++ "...".toList ∧
      (truncateQuote (List.replicate 250 'a')).length = 203 ∧
      truncateQuote "ok".toList = "ok".toList := by
  have hlong : 200 < (List.replicate 250 'a').length := by
    rw [List.length_replicate]
    norm_num
  refine ⟨?_, ?_, ?_⟩
  · exact ((truncateQuote_spec (List.replicate 250 'a')).2.2.1 hlong).1
  · exact ((truncateQuote_spec (List.replicate 250 'a')).2.2.1 hlong).2
  · exact (truncateQuote_spec "ok".toList).2.1 (by decide)
